import Mathlib

/-!
Shallow embedding of the layered-zone and enter/leave machinery of
EntityTreeRenderer.cpp (entity tree renderer of a networked virtual-world
client). Float coordinates and volumes are modelled with exact rationals,
microsecond timestamps with naturals. An iterator of the underlying
sorted set is modelled by the element it designates: set elements are
unique, and set iterators stay attached to their element across
insertions, erasures of other elements, and container swaps. The value
none plays the past-the-end iterator. A comparison that the source would
perform out of bounds is modelled by an Option-valued operation returning
none.
-/

namespace ETR

/-- A 3-component vector of exact coordinates, modelling glm vec3. -/
structure Vec3 where
  x : ℚ
  y : ℚ
  z : ℚ
  deriving DecidableEq, Repr

/-- Componentwise vector addition. -/
def Vec3.add (a b : Vec3) : Vec3 :=
  ⟨a.x + b.x, a.y + b.y, a.z + b.z⟩

/-- Squared Euclidean distance; the source test distance p q > d with a
nonnegative d is modelled as dist2 p q > d * d. -/
def dist2 (a b : Vec3) : ℚ :=
  (a.x - b.x) * (a.x - b.x) + (a.y - b.y) * (a.y - b.y) + (a.z - b.z) * (a.z - b.z)

/-- The slice of an entity read by findBestZoneAndMaybeContainingEntities,
checkEnterLeaveEntities and updateZone: its id, whether its type is Zone,
whether getScript() is nonempty, its visibility, whether it contains the
avatar position of the current call, whether its render item id is valid,
and the volume its layer is built from. -/
structure Entity where
  eid : ℕ
  isZone : Bool
  hasScript : Bool
  visible : Bool
  containsAvatar : Bool
  renderIDValid : Bool
  volume : ℚ
  deriving DecidableEq, Repr

/-- Modelled from the spec: the LayeredZone value type is declared in the
header EntityTreeRenderer.h, which is not part of the excerpt. Per spec
section 3 it carries the zone id and a volume; two layers are elementwise
equal when id and volume agree. -/
structure LayeredZone where
  id : ℕ
  volume : ℚ
  deriving DecidableEq, Repr

/-- Modelled from the spec: the strict ordering of layers, declared in the
missing header — primarily by volume ascending, secondarily by id. -/
def LZlt (a b : LayeredZone) : Prop :=
  a.volume < b.volume ∨ (a.volume = b.volume ∧ a.id < b.id)

instance (a b : LayeredZone) : Decidable (LZlt a b) := by
  unfold LZlt
  infer_instance

/-- Ordered insertion of std set on the element list: returns the new list
and whether insertion happened. Insertion fails exactly on meeting an
element with an equivalent ordering key. -/
def setInsert (l : LayeredZone) : List LayeredZone → List LayeredZone × Bool
  | [] => ([l], true)
  | h :: t =>
    if LZlt l h then (l :: h :: t, true)
    else if LZlt h l then
      let r := setInsert l t
      (h :: r.1, r.2)
    else (h :: t, false)

/-- Lookup in the auxiliary id map (std map find). -/
def mapFind (m : List (ℕ × LayeredZone)) (k : ℕ) : Option LayeredZone :=
  (m.find? (fun p => p.1 == k)).map (fun p => p.2)

/-- std map emplace: a no-op when the key is already present. -/
def mapEmplace (m : List (ℕ × LayeredZone)) (k : ℕ) (v : LayeredZone) :
    List (ℕ × LayeredZone) :=
  if (m.find? (fun p => p.1 == k)).isSome then m else m ++ [(k, v)]

/-- std map erase of the entry found for a key. -/
def mapErase (m : List (ℕ × LayeredZone)) (k : ℕ) : List (ℕ × LayeredZone) :=
  m.filter (fun p => p.1 != k)

/-- EntityTreeRenderer LayeredZones: the ordered element list of the
underlying sorted set, the auxiliary map from id to the element the stored
iterator designates, and the skybox-layer iterator (none models the
past-the-end iterator, some e an iterator at element e). -/
structure LayeredZones where
  elems : List LayeredZone
  map : List (ℕ × LayeredZone)
  skybox : Option LayeredZone
  deriving DecidableEq, Repr

/-- The state LayeredZones::clear leaves behind: empty set, empty map,
skybox marker at the past-the-end iterator. -/
def LayeredZones.cleared : LayeredZones := ⟨[], [], none⟩

/-- LayeredZones::insert: delegates to the sorted-set insert and, on
success, emplaces the new element into the map under its id. -/
def LayeredZones.insert (lz : LayeredZones) (l : LayeredZone) :
    LayeredZones × Bool :=
  let r := setInsert l lz.elems
  if r.2 then ({ elems := r.1, map := mapEmplace lz.map l.id l, skybox := lz.skybox }, true)
  else ({ lz with elems := r.1 }, false)

/-- The move constructor of LayeredZones: it records whether the source
skybox iterator differs from the source past-the-end iterator, swaps the
element storage and the map into the new instance (iterators keep
designating their element across a set swap), copies the skybox iterator,
and resets it to the own past-the-end iterator when the recorded flag says
it was the (invalidated) past-the-end iterator. -/
def LayeredZones.moveCtor (other : LayeredZones) : LayeredZones :=
  let isSkyboxLayerValid := other.skybox.isSome
  { elems := other.elems, map := other.map,
    skybox := if isSkyboxLayerValid then other.skybox else none }

/-- LayeredZones::apply: in this translation unit it only asserts the back
pointer and performs no state change. -/
def LayeredZones.applyL (lz : LayeredZones) : LayeredZones := lz

/-- The number of layers of a set that lie before its skybox iterator:
the distance from begin() to the skybox iterator. -/
def LayeredZones.skyboxOffset (lz : LayeredZones) : ℕ :=
  match lz.skybox with
  | none => lz.elems.length
  | some e => lz.elems.indexOf e

/-- LayeredZones::contains(other): compares the layers of other up to (but
excluding) the other skybox iterator elementwise with the own layers from
begin(), via the 3-iterator std equal; on success the own skybox iterator
is repositioned to the offset of the other skybox iterator. The 3-iterator
std equal walks both ranges in lock-step and stops at the first mismatch,
so when the compared range of other is longer than the own element list
and no mismatch occurs among the own elements, it dereferences the own
past-the-end iterator; that out-of-bounds read is modelled as none. -/
def LayeredZones.contains (self other : LayeredZones) :
    Option (Bool × LayeredZones) :=
  let n := other.skyboxOffset
  if n ≤ self.elems.length then
    if other.elems.take n = self.elems.take n then
      some (true, { self with skybox := self.elems.get? n })
    else some (false, self)
  else
    if other.elems.take self.elems.length = self.elems then none
    else some (false, self)

/-- LayeredZones::update(zone): upsert driven by the current visibility and
volume of the zone. An empty set takes a visible zone directly; otherwise
the existing same-id entry, if any, is erased when its volume changed or
the zone turned invisible, and a fresh layer is inserted at its sorted
position when the id is now absent and the zone is visible. -/
def LayeredZones.update (lz : LayeredZones) (zl : LayeredZone) (isVisible : Bool) :
    LayeredZones :=
  if lz.elems.isEmpty && isVisible then
    ((lz.insert zl).1).applyL
  else
    match mapFind lz.map zl.id with
    | some layer =>
      if zl.volume ≠ layer.volume ∨ isVisible = false then
        let lz1 : LayeredZones :=
          { elems := lz.elems.erase layer, map := mapErase lz.map zl.id,
            skybox := lz.skybox }
        if isVisible then
          let r := lz1.insert zl
          { r.1 with map := mapEmplace r.1.map zl.id zl }
        else lz1
      else lz
    | none =>
      if isVisible then
        let r := lz.insert zl
        { r.1 with map := mapEmplace r.1.map zl.id zl }
      else lz

/-- EntityTreeRenderer::updateZone(id), with the result of the tree lookup
passed as resolved (none when the id does not resolve); the dynamic cast to
a zone entity fails on a non-zone entity, and the guard also requires the
zone to contain the cached avatar position. -/
def updateZone (resolved : Option Entity) (lz : LayeredZones) : LayeredZones :=
  match resolved with
  | none => lz
  | some e =>
    if e.isZone && e.containsAvatar then lz.update ⟨e.eid, e.volume⟩ e.visible
    else lz

/-- Result of findBestZoneAndMaybeContainingEntities: the returned
didUpdate flag, the member layered-zone set after the call, the ids
appended to entitiesContainingAvatar, and whether apply() together with
applyLayeredZones() (the render-selection publisher) ran. -/
structure FBZResult where
  didUpdate : Bool
  zones : LayeredZones
  containing : List ℕ
  applied : Bool
  deriving DecidableEq, Repr

/-- The ids collected by the resolver scan: entities that are zones or
carry a script and that contain the avatar position. -/
def containingIDs (found : List Entity) : List ℕ :=
  (found.filter (fun e => (e.isZone || e.hasScript) && e.containsAvatar)).map
    (fun e => e.eid)

/-- The layered-zone set rebuilt from scratch by the resolver scan:
contained visible zones with a valid render item id are inserted in scan
order into the freshly cleared member set. -/
def rebuildZones (found : List Entity) : LayeredZones :=
  found.foldl
    (fun acc e =>
      if ((e.isZone || e.hasScript) && e.containsAvatar) &&
          (e.isZone && e.visible && e.renderIDValid) then
        (acc.insert ⟨e.eid, e.volume⟩).1
      else acc)
    LayeredZones.cleared

/-- EntityTreeRenderer::findBestZoneAndMaybeContainingEntities, with the
tree query result passed as found. The previous member set is moved into
oldLayeredZones and the member is cleared before the scan; afterwards the
emptiness guards and the contains comparison decide between the
no-update early return and the apply-and-publish path. The value none
propagates the out-of-bounds read of contains. -/
def findBestZone (lz : LayeredZones) (found : List Entity) : Option FBZResult :=
  let old := lz.moveCtor
  let newZones := rebuildZones found
  let ids := containingIDs found
  if newZones.elems.isEmpty then
    if old.elems.isEmpty then some ⟨false, newZones, ids, false⟩
    else some ⟨true, newZones.applyL, ids, true⟩
  else if !old.elems.isEmpty then
    match newZones.contains old with
    | none => none
    | some (true, z) => some ⟨false, z, ids, false⟩
    | some (false, z) => some ⟨true, z.applyL, ids, true⟩
  else some ⟨true, newZones.applyL, ids, true⟩

/-- The recheck-policy constants ZONE_CHECK_DISTANCE, ZONE_CHECK_INTERVAL
and TREE_SCALE. Their numeric values live in headers outside the excerpt,
so they are carried as parameters. -/
structure Config where
  zoneCheckDistance : ℚ
  zoneCheckInterval : ℕ
  treeScale : ℚ
  deriving DecidableEq, Repr

/-- The renderer state the enter/leave machinery reads and writes: the
cached avatar position, the timestamp of the last zone check, the tracked
containment set, and the layered-zone set. -/
structure State where
  avatarPosition : Vec3
  lastZoneCheck : ℕ
  currentEntitiesInside : List ℕ
  layeredZones : LayeredZones
  deriving DecidableEq, Repr

/-- An emitted enter or leave signal. -/
inductive Event where
  | leave (eid : ℕ)
  | enter (eid : ℕ)
  deriving DecidableEq, Repr

/-- EntityTreeRenderer::forceRecheckEntities: displaces the cached avatar
position from the current view position by TREE_SCALE on every axis, so
the next distance test is passed. -/
def forceRecheckEntities (cfg : Config) (viewPos : Vec3) (s : State) : State :=
  { s with avatarPosition := viewPos.add ⟨cfg.treeScale, cfg.treeScale, cfg.treeScale⟩ }

/-- The recheck-policy predicate of checkEnterLeaveEntities: the view moved
by more than ZONE_CHECK_DISTANCE since the cached position, or more than
ZONE_CHECK_INTERVAL elapsed since the last check. -/
def shouldRecheck (cfg : Config) (now : ℕ) (viewPos : Vec3) (s : State) : Prop :=
  dist2 viewPos s.avatarPosition > cfg.zoneCheckDistance * cfg.zoneCheckDistance ∨
    now - s.lastZoneCheck > cfg.zoneCheckInterval

instance (cfg : Config) (now : ℕ) (viewPos : Vec3) (s : State) :
    Decidable (shouldRecheck cfg now viewPos s) := by
  unfold shouldRecheck
  infer_instance

/-- Result of a checkEnterLeaveEntities call: the returned didUpdate flag,
the state after the call, the emitted signals in emission order, the
script-method calls, and whether the containment resolver ran. -/
structure CELResult where
  didUpdate : Bool
  state : State
  events : List Event
  scriptCalls : List Event
  rechecked : Bool
  deriving DecidableEq, Repr

/-- EntityTreeRenderer::checkEnterLeaveEntities. treeLive models the tree
pointer being non-null, shuttingDown the shutdown flag, engine an attached
entities script engine, now the timestamp sample, viewPos the avatar
position sample, found the tree query result used by the resolver. On a
recheck the cached position and check time are stored, the resolver runs,
a leave fires for every previously tracked id absent from the fresh
containment list, then an enter for every fresh id not previously tracked,
and the fresh list is stored. The value none propagates the out-of-bounds
read of contains. -/
def checkEnterLeaveEntities (cfg : Config) (treeLive shuttingDown engine : Bool)
    (now : ℕ) (viewPos : Vec3) (found : List Entity) (s : State) :
    Option CELResult :=
  if treeLive && !shuttingDown then
    if shouldRecheck cfg now viewPos s then
      match findBestZone s.layeredZones found with
      | none => none
      | some r =>
        let leaves := s.currentEntitiesInside.filter
          (fun e => decide (e ∉ r.containing))
        let enters := r.containing.filter
          (fun e => decide (e ∉ s.currentEntitiesInside))
        let evs := leaves.map Event.leave ++ enters.map Event.enter
        some ⟨r.didUpdate, ⟨viewPos, now, r.containing, r.zones⟩, evs,
              if engine then evs else [], true⟩
    else some ⟨false, s, [], [], false⟩
  else some ⟨false, s, [], [], false⟩

/-- Result of leaveAllEntities: the state after the call, the emitted
signals, and the script-method calls. -/
structure LAEResult where
  state : State
  events : List Event
  scriptCalls : List Event
  deriving DecidableEq, Repr

/-- EntityTreeRenderer::leaveAllEntities: guarded by a live tree and the
shutdown flag being unset; fires a leave for every tracked id (an emitted
signal plus, when the script engine is attached, a leaveEntity
script-method call), clears the tracked containment set, and calls
forceRecheckEntities(). -/
def leaveAllEntities (cfg : Config) (treeLive shuttingDown engine : Bool)
    (viewPos : Vec3) (s : State) : LAEResult :=
  if treeLive && !shuttingDown then
    let evs := s.currentEntitiesInside.map Event.leave
    ⟨forceRecheckEntities cfg viewPos { s with currentEntitiesInside := [] },
     evs, if engine then evs else []⟩
  else ⟨s, [], []⟩

/-- The leaveAllEntities() invocation performed during
EntityTreeRenderer::shutdown(): shutdown() sets the shutdown flag and then
calls clear(), whose first statement is leaveAllEntities() — so that call
runs with the shutdown flag set. The remainder of clear() never touches
the tracked containment set. -/
def shutdownLeavePhase (cfg : Config) (treeLive engine : Bool)
    (viewPos : Vec3) (s : State) : LAEResult :=
  leaveAllEntities cfg treeLive true engine viewPos s

/-- Concrete configuration used by the worked instances below: distance
threshold 1, time threshold 10, tree scale 32768. -/
def cfg0 : Config := ⟨1, 10, 32768⟩

/-- Concrete view position at the origin. -/
def vp0 : Vec3 := ⟨0, 0, 0⟩

/-- Concrete renderer state: origin position, last check at 0, nothing
tracked, empty layered-zone set. -/
def s8 : State := ⟨vp0, 0, [], LayeredZones.cleared⟩

/-- Concrete one-layer set with a matching id map. -/
def lzC1 : LayeredZones := ⟨[⟨1, 1⟩], [(1, ⟨1, 1⟩)], none⟩

/-- Concrete visible zone entity with id 1 and volume 1 containing the
avatar. -/
def entC1a : Entity := ⟨1, true, false, true, true, true, 1⟩

/-- Concrete visible zone entity with id 2 and volume 2 containing the
avatar. -/
def entC1b : Entity := ⟨2, true, false, true, true, true, 2⟩

/-- Concrete visible zone entity with id 7 and volume 4 containing the
avatar. -/
def entC6 : Entity := ⟨7, true, false, true, true, true, 4⟩

/-- Concrete one-layer set holding the layer with id 1 and volume 5. -/
def lzC5 : LayeredZones := ⟨[⟨1, 5⟩], [(1, ⟨1, 5⟩)], none⟩

/-- Concrete one-layer set, the shorter side of the bounds check. -/
def lzA9 : LayeredZones := ⟨[⟨1, 1⟩], [(1, ⟨1, 1⟩)], none⟩

/-- Concrete two-layer set whose compared range is longer than lzA9. -/
def lzB9 : LayeredZones := ⟨[⟨1, 1⟩, ⟨2, 2⟩], [(1, ⟨1, 1⟩), (2, ⟨2, 2⟩)], none⟩

/-- Concrete zone entity with id 1, volume 5, still containing the avatar
but no longer visible. -/
def e10 : Entity := ⟨1, true, false, false, true, true, 5⟩

/-- Concrete one-layer set containing the layer of e10. -/
def lz10 : LayeredZones := ⟨[⟨1, 5⟩], [(1, ⟨1, 5⟩)], none⟩

/-- Concrete non-zone scripted entity with id 2. -/
def eC10w : Entity := ⟨2, false, true, true, true, true, 3⟩

/-- Concrete one-layer set with a skybox marker on its single layer. -/
def lzC4 : LayeredZones := ⟨[⟨1, 2⟩], [(1, ⟨1, 2⟩)], some ⟨1, 2⟩⟩

/-- Concrete state tracking ids 1 and 2 with an empty layered-zone set. -/
def sC3 : State := ⟨vp0, 0, [1, 2], LayeredZones.cleared⟩

/-- Concrete scripted non-zone entity with id 2 containing the avatar. -/
def entC3a : Entity := ⟨2, false, true, true, true, true, 1⟩

/-- Concrete scripted non-zone entity with id 3 containing the avatar. -/
def entC3b : Entity := ⟨3, false, true, true, true, true, 1⟩

/-- Concrete state tracking id 1, used for the shutdown instance. -/
def sC2 : State := ⟨vp0, 0, [1], LayeredZones.cleared⟩

/-- Concrete resolver result for the scripted entities 2 and 3. -/
def rC3 : FBZResult := ⟨false, LayeredZones.cleared, [2, 3], false⟩

/-- Concrete checkEnterLeaveEntities result for the recheck that tracks
ids 2 and 3 after ids 1 and 2. -/
def cC3 : CELResult :=
  ⟨false, ⟨vp0, 100, [2, 3], LayeredZones.cleared⟩,
   [Event.leave 1, Event.enter 3], [Event.leave 1, Event.enter 3], true⟩

/-- Concrete resolver result of an empty scan over an empty set. -/
def rC7 : FBZResult := ⟨false, LayeredZones.cleared, [], false⟩

/-- Concrete result of a first checkEnterLeaveEntities call that performed
a recheck at time 14 from the origin. -/
def cC8 : CELResult := ⟨false, ⟨vp0, 14, [], LayeredZones.cleared⟩, [], [], true⟩

end ETR

namespace ETR

/-- The move constructor acts as the identity on the element-level model:
the guarded reset only re-creates the past-the-end marker that the model
already represents stably as none. -/
theorem LayeredZones.moveCtor_eq (lz : LayeredZones) : lz.moveCtor = lz := by
  cases lz with
  | mk es m sk => cases sk <;> simp [LayeredZones.moveCtor]

/-- The layer order is asymmetric. -/
theorem LZlt_asymm {a b : LayeredZone} (h : LZlt a b) : ¬ LZlt b a := by
  rintro (h3 | ⟨h3, h4⟩) <;> rcases h with h | ⟨h1, h2⟩
  · exact lt_asymm h h3
  · exact absurd h3 (by rw [h1]; exact lt_irrefl _)
  · exact absurd h (by rw [h3]; exact lt_irrefl _)
  · exact lt_asymm h2 h4

/-- Two layers that are mutually unordered are equal. -/
theorem LZlt_eq_of_not {a b : LayeredZone} (h1 : ¬ LZlt a b) (h2 : ¬ LZlt b a) :
    a = b := by
  unfold LZlt at h1 h2
  push_neg at h1 h2
  have hv : a.volume = b.volume := le_antisymm h2.1 h1.1
  have hi : a.id = b.id := le_antisymm (h2.2 hv.symm) (h1.2 hv)
  cases a
  cases b
  simp_all

/-- A failed sorted-set insert leaves the element list unchanged. -/
theorem setInsert_fst_of_false (l : LayeredZone) :
    ∀ es : List LayeredZone, (setInsert l es).2 = false → (setInsert l es).1 = es := by
  intro es
  induction es with
  | nil => simp [setInsert]
  | cons h t ih =>
    intro hf
    by_cases h1 : LZlt l h
    · simp [setInsert, h1] at hf
    · by_cases h2 : LZlt h l
      · have hf2 : (setInsert l t).2 = false := by
          simpa [setInsert, h1, h2] using hf
        simp [setInsert, h1, h2, ih hf2]
      · simp [setInsert, h1, h2]

/-- On a sorted element list, a sorted-set insert fails exactly when the
inserted value is already an element. -/
theorem setInsert_snd_false_iff (l : LayeredZone) :
    ∀ es : List LayeredZone, es.Pairwise LZlt →
      ((setInsert l es).2 = false ↔ l ∈ es) := by
  intro es
  induction es with
  | nil => simp [setInsert]
  | cons h t ih =>
    intro hp
    rcases List.pairwise_cons.mp hp with ⟨hhead, htail⟩
    by_cases h1 : LZlt l h
    · constructor
      · intro hf
        simp [setInsert, h1] at hf
      · intro hm
        rcases List.mem_cons.mp hm with rfl | hm
        · exact absurd h1 (LZlt_asymm h1)
        · exact absurd h1 (LZlt_asymm (hhead l hm))
    · by_cases h2 : LZlt h l
      · have hrec := ih htail
        constructor
        · intro hf
          have hf2 : (setInsert l t).2 = false := by
            simpa [setInsert, h1, h2] using hf
          exact List.mem_cons_of_mem h (hrec.mp hf2)
        · intro hm
          have hm2 : l ∈ t := by
            rcases List.mem_cons.mp hm with rfl | hm
            · exact absurd h2 (LZlt_asymm h2)
            · exact hm
          simpa [setInsert, h1, h2] using hrec.mpr hm2
      · have heq : l = h := LZlt_eq_of_not h1 h2
        subst heq
        simp [setInsert, h1]

/-- The success flag of a LayeredZones insert equals the success flag of
the underlying sorted-set insert. -/
theorem insert_snd_eq (lz : LayeredZones) (l : LayeredZone) :
    (lz.insert l).2 = (setInsert l lz.elems).2 := by
  unfold LayeredZones.insert
  by_cases h : (setInsert l lz.elems).2 <;> simp [h]

/-- C4: a move-constructed layered-zone set preserves the skybox marker
offset — a marker designating the k-th layer of the source designates the
k-th layer of the destination, and a past-the-end marker resolves to the
past-the-end marker of the destination. -/
theorem claim_c4_move_preserves_skybox (a : LayeredZones) (k : ℕ) :
    (a.skybox = a.elems.get? k → a.moveCtor.skybox = a.moveCtor.elems.get? k) ∧
    (a.skybox = none → a.moveCtor.skybox = none) := by
  rw [LayeredZones.moveCtor_eq]
  exact ⟨fun h => h, fun h => h⟩

/-- C4 witness: the theorem applied to a set whose marker designates layer
0, and to the cleared set whose marker is past-the-end. -/
theorem claim_c4_witness :
    lzC4.moveCtor.skybox = lzC4.moveCtor.elems.get? 0 ∧
    LayeredZones.cleared.moveCtor.skybox = none :=
  ⟨(claim_c4_move_preserves_skybox lzC4 0).1 (by decide),
   (claim_c4_move_preserves_skybox LayeredZones.cleared 0).2 (by decide)⟩

/-- C5 counterexample: with the layer of id 1 and volume 5 present,
inserting a layer with the same id 1 but volume 3 succeeds, and the set
then holds two layers that share id 1 — refuting both the claimed
unconditional same-id rejection and the claimed id-uniqueness after blind
inserts. -/
theorem claim_c5_counterexample :
    (lzC5.insert ⟨1, 3⟩).2 = true ∧
    (((lzC5.insert ⟨1, 3⟩).1.elems.filter (fun l => l.id == 1)).length = 2) := by
  decide

/-- C5 (amended): insert is a silent no-op — returning false and leaving
the element list and the id map unchanged — exactly when a layer with the
same ordering key (equal volume and equal id) is already present; a layer
whose id is present under a different volume is inserted. -/
theorem claim_c5_insert_noop_iff (lz : LayeredZones) (l : LayeredZone)
    (hs : lz.elems.Pairwise LZlt) :
    ((lz.insert l).2 = false ↔ l ∈ lz.elems) ∧
    ((lz.insert l).2 = false → lz.insert l = (lz, false)) := by
  constructor
  · rw [insert_snd_eq]
    exact setInsert_snd_false_iff l lz.elems hs
  · intro hf
    rw [insert_snd_eq] at hf
    unfold LayeredZones.insert
    simp only [hf, Bool.false_eq_true, if_false, setInsert_fst_of_false l lz.elems hf]

/-- C5 witness: the amended theorem applied to the one-layer set holding
the layer of id 1 and volume 5 and that exact layer. -/
theorem claim_c5_witness :
    ((lzC5.insert ⟨1, 5⟩).2 = false ↔ (⟨1, 5⟩ : LayeredZone) ∈ lzC5.elems) ∧
    ((lzC5.insert ⟨1, 5⟩).2 = false → lzC5.insert ⟨1, 5⟩ = (lzC5, false)) :=
  claim_c5_insert_noop_iff lzC5 ⟨1, 5⟩ (by simp [lzC5])

/-- C9: the prefix comparison of contains is not in-bounds for all inputs —
with a one-layer set as receiver and a two-layer set (skybox marker
past-the-end) as argument, the compared range is longer than the
receiver, the receiver elements all match, and the walk dereferences the
receiver past-the-end iterator; the model returns none for that
out-of-bounds read. -/
theorem claim_c9_contains_oob :
    lzB9.skyboxOffset > lzA9.elems.length ∧ lzA9.contains lzB9 = none := by
  decide

/-- C10 counterexample: a zone with id 1 that is in the set, still contains
the avatar, but turned invisible, is erased by updateZone — the set
becomes empty — refuting the claim that such a zone is not erased. -/
theorem claim_c10_counterexample :
    e10.isZone = true ∧ e10.containsAvatar = true ∧ e10.visible = false ∧
    (⟨1, e10.volume⟩ : LayeredZone) ∈ lz10.elems ∧
    (updateZone (some e10) lz10).elems = [] := by
  decide

/-- C10 (amended): updateZone leaves the layered-zone set completely
unchanged when the id does not resolve, or resolves to a non-zone entity,
or to a zone not containing the cached avatar position — in particular a
zone that merely stopped containing the avatar is not erased. (A zone
still containing the avatar that turned invisible is erased; see the
counterexample.) -/
theorem claim_c10_no_mutation (e : Entity) (lz : LayeredZones)
    (h : e.isZone = false ∨ e.containsAvatar = false) :
    updateZone (some e) lz = lz ∧ updateZone none lz = lz := by
  constructor
  · rcases h with h | h <;> simp [updateZone, h]
  · rfl

/-- C10 witness: the amended theorem applied to a non-zone scripted entity
and the one-layer set. -/
theorem claim_c10_witness :
    updateZone (some eC10w) lz10 = lz10 ∧ updateZone none lz10 = lz10 :=
  claim_c10_no_mutation eC10w lz10 (Or.inl rfl)

end ETR

namespace ETR

/-- A successful contains comparison means the compared prefix of the
argument equals the corresponding prefix of the receiver, and the returned
set keeps the receiver elements. -/
theorem contains_true_elim (self other z : LayeredZones)
    (h : self.contains other = some (true, z)) :
    other.elems.take other.skyboxOffset = self.elems.take other.skyboxOffset ∧
    z.elems = self.elems := by
  simp only [LayeredZones.contains] at h
  by_cases h1 : other.skyboxOffset ≤ self.elems.length
  · rw [if_pos h1] at h
    by_cases h2 : other.elems.take other.skyboxOffset = self.elems.take other.skyboxOffset
    · rw [if_pos h2] at h
      have h3 := Option.some.inj h
      rw [Prod.mk.injEq] at h3
      exact ⟨h2, by rw [← h3.2]⟩
    · rw [if_neg h2] at h
      have h3 := congrArg Prod.fst (Option.some.inj h)
      exact absurd h3 (by simp)
  · rw [if_neg h1] at h
    by_cases h2 : other.elems.take self.elems.length = self.elems
    · rw [if_pos h2] at h
      exact Option.noConfusion h
    · rw [if_neg h2] at h
      have h3 := congrArg Prod.fst (Option.some.inj h)
      exact absurd h3 (by simp)

/-- C1 counterexample: with previous set holding only the layer (id 1,
volume 1) and a scan finding two containing visible zones (id 1, volume 1)
and (id 2, volume 2), the contains comparison succeeds — the sets are
layer-equivalent per the source test — and the call returns
didUpdate false without applying, yet the stored set afterwards is the
newly rebuilt two-layer set, not the previous one-layer set. -/
theorem claim_c1_counterexample :
    (rebuildZones [entC1a, entC1b]).contains lzC1.moveCtor =
      some (true, ⟨[⟨1, 1⟩, ⟨2, 2⟩], [(1, ⟨1, 1⟩), (2, ⟨2, 2⟩)], some ⟨2, 2⟩⟩) ∧
    findBestZone lzC1 [entC1a, entC1b] =
      some ⟨false, ⟨[⟨1, 1⟩, ⟨2, 2⟩], [(1, ⟨1, 1⟩), (2, ⟨2, 2⟩)], some ⟨2, 2⟩⟩, [1, 2], false⟩ ∧
    (⟨[⟨1, 1⟩, ⟨2, 2⟩], [(1, ⟨1, 1⟩), (2, ⟨2, 2⟩)], some ⟨2, 2⟩⟩ : LayeredZones) ≠ lzC1 := by
  decide

/-- C1 (amended): when the newly built set is layer-equivalent to the
previous set per the source test — both empty, or both nonempty with a
successful contains prefix comparison — the call returns didUpdate false,
apply() and the render-selection publisher do not run, and the stored set
is the newly rebuilt set, whose layers up to the previous skybox offset
coincide with the previous layers up to that offset (the set may differ
beyond that offset). -/
theorem claim_c1_equiv_no_update (lz : LayeredZones) (found : List Entity)
    (h : ((rebuildZones found).elems = [] ∧ lz.elems = []) ∨
         ((rebuildZones found).elems ≠ [] ∧ lz.elems ≠ [] ∧
          ∃ z, (rebuildZones found).contains lz.moveCtor = some (true, z))) :
    (findBestZone lz found).map
        (fun r => (r.didUpdate, r.applied,
                   r.zones.elems.take lz.moveCtor.skyboxOffset)) =
      some (false, false, lz.elems.take lz.moveCtor.skyboxOffset) := by
  have hmv := LayeredZones.moveCtor_eq lz
  rcases h with ⟨hn, hl⟩ | ⟨hn, hl, z, hc⟩
  · simp [findBestZone, hmv, hn, hl]
  · rw [hmv] at hc
    rcases contains_true_elim (rebuildZones found) lz z hc with ⟨htake, hz⟩
    have hn2 : (rebuildZones found).elems.isEmpty = false := by
      simp [List.isEmpty_iff, hn]
    have hl2 : lz.elems.isEmpty = false := by
      simp [List.isEmpty_iff, hl]
    simp [findBestZone, hmv, hc, hn2, hl2]
    rw [hz]
    exact htake.symm

/-- C1 witness: the amended theorem applied to the one-layer set and a
scan finding the matching zone of id 1. -/
theorem claim_c1_witness :
    (findBestZone lzC1 [entC1a]).map
        (fun r => (r.didUpdate, r.applied,
                   r.zones.elems.take lzC1.moveCtor.skyboxOffset)) =
      some (false, false, lzC1.elems.take lzC1.moveCtor.skyboxOffset) :=
  claim_c1_equiv_no_update lzC1 [entC1a]
    (Or.inr ⟨by decide, by decide, ⟨⟨[⟨1, 1⟩], [(1, ⟨1, 1⟩)], none⟩, by decide⟩⟩)

/-- C6: when both the old and the newly built sets are empty the call
reports no update and does not apply or publish; when exactly one of the
two is empty it reports a change and applies and publishes. -/
theorem claim_c6_empty_cases (lz : LayeredZones) (found : List Entity)
    (h : (rebuildZones found).elems = [] ∨ lz.elems = []) :
    (findBestZone lz found).map (fun r => (r.didUpdate, r.applied)) =
      some (if (rebuildZones found).elems = [] ∧ lz.elems = [] then (false, false)
            else (true, true)) := by
  have hmv := LayeredZones.moveCtor_eq lz
  by_cases hn : (rebuildZones found).elems = [] <;> by_cases hl : lz.elems = []
  · simp [findBestZone, hmv, hn, hl, List.isEmpty_iff]
  · simp [findBestZone, hmv, hn, hl, List.isEmpty_iff, LayeredZones.applyL]
  · simp [findBestZone, hmv, hn, hl, List.isEmpty_iff, LayeredZones.applyL]
  · rcases h with h | h <;> contradiction

/-- C6 witness: the theorem applied to an empty previous set and a scan
finding one visible containing zone. -/
theorem claim_c6_witness :
    (findBestZone LayeredZones.cleared [entC6]).map (fun r => (r.didUpdate, r.applied)) =
      some (if (rebuildZones [entC6]).elems = [] ∧ LayeredZones.cleared.elems = []
            then (false, false) else (true, true)) :=
  claim_c6_empty_cases LayeredZones.cleared [entC6] (Or.inr rfl)

end ETR

namespace ETR

/-- C2 counterexample: invoked via shutdown() (which sets the shutdown
flag before clear() runs leaveAllEntities()), the call fires no leave
notification and no script-method call and leaves the tracked containment
set untouched — refuting the claimed unconditional behavior during
teardown. -/
theorem claim_c2_counterexample :
    (shutdownLeavePhase cfg0 true true vp0 sC2).events = [] ∧
    (shutdownLeavePhase cfg0 true true vp0 sC2).scriptCalls = [] ∧
    (shutdownLeavePhase cfg0 true true vp0 sC2).state.currentEntitiesInside = [1] := by
  decide

/-- C2 (amended): leaveAllEntities fires a leave notification (and, when a
script engine is attached, a leaveEntity script-method call) for every id
in the tracked containment set, then empties the set and displaces the
stored last-checked position by TREE_SCALE on each axis — but only when a
tree is present and the renderer is not shutting down; with the shutdown
flag set (as during shutdown(), which raises the flag before clear()) the
call is a complete no-op. -/
theorem claim_c2_leave_all (cfg : Config) (engine : Bool) (viewPos : Vec3) (s : State) :
    leaveAllEntities cfg true false engine viewPos s =
      ⟨⟨viewPos.add ⟨cfg.treeScale, cfg.treeScale, cfg.treeScale⟩,
        s.lastZoneCheck, [], s.layeredZones⟩,
       s.currentEntitiesInside.map Event.leave,
       if engine then s.currentEntitiesInside.map Event.leave else []⟩ ∧
    leaveAllEntities cfg true true engine viewPos s = ⟨s, [], []⟩ := by
  constructor
  · simp [leaveAllEntities, forceRecheckEntities]
  · simp [leaveAllEntities]

/-- C3: on a recheck with previous containment set P and fresh set N, a
leave fires exactly for the ids of P absent from N, an enter exactly for
the ids of N absent from P, ids in both fire neither, every leave of the
cycle precedes every enter, and the stored containment set afterwards is
N. -/
theorem claim_c3_diff (cfg : Config) (engine : Bool) (now : ℕ) (viewPos : Vec3)
    (found : List Entity) (s : State) (r : FBZResult) (c : CELResult)
    (hg : shouldRecheck cfg now viewPos s)
    (hf : findBestZone s.layeredZones found = some r)
    (hc : checkEnterLeaveEntities cfg true false engine now viewPos found s = some c) :
    c.state.currentEntitiesInside = r.containing ∧
    (∀ e, Event.leave e ∈ c.events ↔ e ∈ s.currentEntitiesInside ∧ e ∉ r.containing) ∧
    (∀ e, Event.enter e ∈ c.events ↔ e ∈ r.containing ∧ e ∉ s.currentEntitiesInside) ∧
    (∃ ls es : List ℕ, c.events = ls.map Event.leave ++ es.map Event.enter) := by
  unfold checkEnterLeaveEntities at hc
  rw [if_pos (show (true && !false) = true from rfl), if_pos hg] at hc
  simp only [hf] at hc
  have hcc := Option.some.inj hc
  subst hcc
  refine ⟨rfl, ?_, ?_, ?_⟩
  · intro e
    simp [List.mem_filter]
  · intro e
    simp [List.mem_filter, and_comm]
  · exact ⟨_, _, rfl⟩

/-- C3 witness: the theorem applied to the transition from tracked ids
1 and 2 to fresh containment ids 2 and 3 — the events are exactly one
leave for 1 followed by one enter for 3, and id 2 fires neither. -/
theorem claim_c3_witness :
    cC3.state.currentEntitiesInside = rC3.containing ∧
    (Event.leave 1 ∈ cC3.events ↔ 1 ∈ sC3.currentEntitiesInside ∧ 1 ∉ rC3.containing) ∧
    (Event.enter 3 ∈ cC3.events ↔ 3 ∈ rC3.containing ∧ 3 ∉ sC3.currentEntitiesInside) ∧
    (∃ ls es : List ℕ, cC3.events = ls.map Event.leave ++ es.map Event.enter) := by
  have hg : shouldRecheck cfg0 100 vp0 sC3 := Or.inr (by decide)
  have hf : findBestZone sC3.layeredZones [entC3a, entC3b] = some rC3 := by decide
  have hc : checkEnterLeaveEntities cfg0 true false true 100 vp0 [entC3a, entC3b] sC3 =
      some cC3 := by
    unfold checkEnterLeaveEntities
    rw [if_pos (show (true && !false) = true from rfl), if_pos hg]
    simp only [hf]
    decide
  have H := claim_c3_diff cfg0 true 100 vp0 [entC3a, entC3b] sC3 rC3 cC3 hg hf hc
  exact ⟨H.1, H.2.1 1, H.2.2.1 3, H.2.2.2⟩

/-- C7: after forceRecheckEntities, a checkEnterLeaveEntities call (live
tree, not shutting down) from the same view position always performs the
full recheck — the resolver runs and its containment list is stored —
independent of elapsed time, because the displaced cached position makes
the distance test pass whenever 0 < ZONE_CHECK_DISTANCE < TREE_SCALE. -/
theorem claim_c7_force_then_check (cfg : Config) (engine : Bool) (now : ℕ)
    (viewPos : Vec3) (found : List Entity) (s : State) (r : FBZResult)
    (hd : 0 < cfg.zoneCheckDistance)
    (hT : cfg.zoneCheckDistance < cfg.treeScale)
    (hf : findBestZone (forceRecheckEntities cfg viewPos s).layeredZones found = some r) :
    (checkEnterLeaveEntities cfg true false engine now viewPos found
        (forceRecheckEntities cfg viewPos s)).map
      (fun c => (c.rechecked, c.state.currentEntitiesInside)) = some (true, r.containing) := by
  have hds : dist2 viewPos (forceRecheckEntities cfg viewPos s).avatarPosition =
      3 * (cfg.treeScale * cfg.treeScale) := by
    simp only [forceRecheckEntities, dist2, Vec3.add]
    ring
  have hsq : cfg.zoneCheckDistance * cfg.zoneCheckDistance <
      cfg.treeScale * cfg.treeScale := by nlinarith
  have hg : shouldRecheck cfg now viewPos (forceRecheckEntities cfg viewPos s) := by
    unfold shouldRecheck
    left
    rw [hds]
    nlinarith
  unfold checkEnterLeaveEntities
  rw [if_pos (show (true && !false) = true from rfl), if_pos hg]
  simp only [hf]
  simp

/-- C7 witness: the theorem applied to the concrete configuration and the
empty scan over the displaced empty state. -/
theorem claim_c7_witness :
    (checkEnterLeaveEntities cfg0 true false true 5 vp0 []
        (forceRecheckEntities cfg0 vp0 s8)).map
      (fun c => (c.rechecked, c.state.currentEntitiesInside)) = some (true, rC7.containing) :=
  claim_c7_force_then_check cfg0 true 5 vp0 [] s8 rC7 (by decide) (by decide) (by decide)

/-- C8 counterexample: two calls in immediate succession from the same
view position with only 6 time units between them (below the threshold of
10) — the first call skips because neither threshold is crossed, yet the
second call performs a recheck (the time since the last stored check
crosses the threshold between the calls) and mutates the recheck-policy
state, refuting the claim that the second call always skips. -/
theorem claim_c8_counterexample :
    checkEnterLeaveEntities cfg0 true false true 8 vp0 [] s8 =
      some ⟨false, s8, [], [], false⟩ ∧
    14 - 8 < cfg0.zoneCheckInterval ∧
    (checkEnterLeaveEntities cfg0 true false true 14 vp0 [] s8).map
      (fun c => (c.rechecked, c.state.lastZoneCheck)) = some (true, 14) := by
  refine ⟨?_, by decide, ?_⟩
  · have hng : ¬ shouldRecheck cfg0 8 vp0 s8 := by
      unfold shouldRecheck
      rintro (hmv | htm)
      · norm_num [dist2, vp0, s8, cfg0] at hmv
      · exact absurd htm (by decide)
    unfold checkEnterLeaveEntities
    rw [if_pos (show (true && !false) = true from rfl), if_neg hng]
  · have hg : shouldRecheck cfg0 14 vp0 s8 := Or.inr (by decide)
    have hfz : findBestZone s8.layeredZones [] =
        some ⟨false, LayeredZones.cleared, [], false⟩ := by decide
    unfold checkEnterLeaveEntities
    rw [if_pos (show (true && !false) = true from rfl), if_pos hg]
    simp only [hfz]
    decide

/-- C8 (amended): across two successive calls with the viewpoint moved at
most the distance threshold and at most the time threshold elapsed
between the calls, at most one actual recheck happens — whenever the
first call performed a recheck, the second call skips the resolver, fires
no events, and leaves the stored containment set and the recheck-policy
state unchanged. -/
theorem claim_c8_second_call_noop (cfg : Config) (e1 e2 : Bool) (now1 now2 : ℕ)
    (vp1 vp2 : Vec3) (found1 found2 : List Entity) (s : State) (c1 : CELResult)
    (h1 : checkEnterLeaveEntities cfg true false e1 now1 vp1 found1 s = some c1)
    (hre : c1.rechecked = true)
    (hmove : dist2 vp2 vp1 ≤ cfg.zoneCheckDistance * cfg.zoneCheckDistance)
    (htime : now2 - now1 ≤ cfg.zoneCheckInterval) :
    checkEnterLeaveEntities cfg true false e2 now2 vp2 found2 c1.state =
      some ⟨false, c1.state, [], [], false⟩ := by
  have hstate : c1.state.avatarPosition = vp1 ∧ c1.state.lastZoneCheck = now1 := by
    unfold checkEnterLeaveEntities at h1
    rw [if_pos (show (true && !false) = true from rfl)] at h1
    by_cases hg : shouldRecheck cfg now1 vp1 s
    · rw [if_pos hg] at h1
      cases hfz : findBestZone s.layeredZones found1 with
      | none =>
        rw [hfz] at h1
        exact Option.noConfusion h1
      | some r =>
        simp only [hfz] at h1
        have hcc := Option.some.inj h1
        rw [← hcc]
        exact ⟨rfl, rfl⟩
    · rw [if_neg hg] at h1
      have hcc := Option.some.inj h1
      rw [← hcc] at hre
      simp at hre
  have hng : ¬ shouldRecheck cfg now2 vp2 c1.state := by
    unfold shouldRecheck
    rintro (hmv | htm)
    · rw [hstate.1] at hmv
      exact absurd hmv (not_lt.mpr hmove)
    · rw [hstate.2] at htm
      exact absurd htm (not_lt.mpr htime)
  unfold checkEnterLeaveEntities
  rw [if_pos (show (true && !false) = true from rfl), if_neg hng]

/-- C8 witness: the amended theorem applied to a first call that rechecked
at time 14 and a second call at time 20 from the same position. -/
theorem claim_c8_witness :
    checkEnterLeaveEntities cfg0 true false true 20 vp0 [] cC8.state =
      some ⟨false, cC8.state, [], [], false⟩ := by
  have hg : shouldRecheck cfg0 14 vp0 s8 := Or.inr (by decide)
  have hfz : findBestZone s8.layeredZones [] =
      some ⟨false, LayeredZones.cleared, [], false⟩ := by decide
  have h1 : checkEnterLeaveEntities cfg0 true false true 14 vp0 [] s8 = some cC8 := by
    unfold checkEnterLeaveEntities
    rw [if_pos (show (true && !false) = true from rfl), if_pos hg]
    simp only [hfz]
    decide
  have hmove : dist2 vp0 vp0 ≤ cfg0.zoneCheckDistance * cfg0.zoneCheckDistance := by
    norm_num [dist2, vp0, cfg0]
  exact claim_c8_second_call_noop cfg0 true true 14 20 vp0 vp0 [] [] s8 cC8 h1 rfl
    hmove (by decide)

end ETR
